import Mathlib

/-!
Verification of the HA-PUPPET-TRMNL screenshot add-on core against its
specification.  The JavaScript sources (`scheduler.js`, `screenshot.js`,
`file-manager.js`) are shallowly embedded below: mutable object state becomes
explicit state passing, asynchronous control flow becomes a small-step event
semantics, and fallible calls return `Except`.
-/

namespace Puppet

/- ## Operation queue (`Browser.enqueue` / `Browser.processQueue`) -/

/-- State of the browser operation queue: the pending FIFO `queue` and the
`processing` flag of `Browser.processQueue`, together with the log of tasks
already executed, in execution order.  Natural-number ids stand for the
enqueued task functions. -/
structure QueueState where
  queue : List Nat
  processing : Bool
  executed : List Nat
deriving Repr, DecidableEq

/-- Initial queue state of a fresh `Browser` instance: empty queue,
`processing = false`, nothing executed. -/
def QueueState.init : QueueState := ⟨[], false, []⟩

/-- Events of the queue semantics.  `enqueue` models `Browser.enqueue` pushing
a task and synchronously invoking `processQueue`; `work` models one iteration
of the `while` drain loop (shift the head task and run it to completion);
`finish` models the loop exit that clears `processing` once the queue is
empty. -/
inductive QEvent where
  | enqueue (id : Nat)
  | work
  | finish
deriving Repr, DecidableEq

/-- One step of the queue semantics.  `enqueue` appends to the queue; since
`processQueue` returns immediately when `processing` is already set and
otherwise starts draining the now-nonempty queue, `processing` is true after
either outcome.  `work` and `finish` fire only in states where the
corresponding source line can run and are no-ops elsewhere. -/
def qstep (s : QueueState) (e : QEvent) : QueueState :=
  match e with
  | .enqueue id => { s with queue := s.queue ++ [id], processing := true }
  | .work =>
    match s.processing, s.queue with
    | true, t :: rest => { s with queue := rest, executed := s.executed ++ [t] }
    | _, _ => s
  | .finish =>
    match s.processing, s.queue with
    | true, [] => { s with processing := false }
    | _, _ => s

/-- Run a trace of queue events from a starting state. -/
def qrun (s : QueueState) (evs : List QEvent) : QueueState :=
  evs.foldl qstep s

/-- Task ids submitted by a trace, in submission order. -/
def submitted (evs : List QEvent) : List Nat :=
  evs.filterMap (fun e => match e with | .enqueue id => some id | _ => none)

theorem qrun_append (s : QueueState) (evs : List QEvent) (e : QEvent) :
    qrun s (evs ++ [e]) = qstep (qrun s evs) e := by
  simp [qrun]

theorem submitted_cons_enqueue (id : Nat) (evs : List QEvent) :
    submitted (QEvent.enqueue id :: evs) = id :: submitted evs := by
  simp [submitted]

/-- Core invariant: after any trace, the executed log followed by the still
pending queue is exactly the submitted ids in submission order. -/
theorem qrun_executed_append (evs : List QEvent) (s : QueueState) :
    (qrun s evs).executed ++ (qrun s evs).queue
      = s.executed ++ (s.queue ++ submitted evs) := by
  induction evs generalizing s with
  | nil => simp [qrun, submitted]
  | cons e rest ih =>
    have hstep : qrun s (e :: rest) = qrun (qstep s e) rest := by
      simp [qrun]
    rw [hstep]
    cases e with
    | enqueue id =>
      rw [ih]
      simp [qstep, submitted]
    | work =>
      rw [ih]
      rcases hp : s.processing with _ | _ <;> rcases hq : s.queue with _ | ⟨t, rest2⟩ <;>
        simp [qstep, hp, hq, submitted]
    | finish =>
      rw [ih]
      rcases hp : s.processing with _ | _ <;> rcases hq : s.queue with _ | ⟨t, rest2⟩ <;>
        simp [qstep, hp, hq, submitted]

/-- The `processing` flag can only fall back to `false` when the queue has
been fully drained. -/
theorem qstep_processing_stop (s : QueueState) (e : QEvent)
    (hp : s.processing = true) (h : (qstep s e).processing = false) :
    s.queue = [] ∧ (qstep s e).queue = [] := by
  cases e with
  | enqueue id => simp [qstep] at h
  | work =>
    rcases hq : s.queue with _ | ⟨t, rest⟩ <;> simp [qstep, hp, hq] at h ⊢
  | finish =>
    rcases hq : s.queue with _ | ⟨t, rest⟩ <;> simp [qstep, hp, hq] at h ⊢

/-- C1: the operation queue serializes browser work: each step executes at
most one task, and only the queue head while `processing` holds (serial,
FIFO execution); across any trace the executed log plus the pending queue is
exactly the ids in submission order, so tasks complete in FIFO order; the
drain loop stops (`processing` falls to `false`) only when the queue is
empty; and consequently when a drain pass ends, every task submitted so far —
including any enqueued while the drain was in progress — has been executed by
that same pass. -/
theorem C1_queue_serializes_fifo_and_drains :
    (∀ s e, (qstep s e).executed = s.executed ∨
        (s.processing = true ∧ ∃ t, s.queue = t :: (qstep s e).queue ∧
          (qstep s e).executed = s.executed ++ [t])) ∧
    (∀ evs : List QEvent,
        (qrun .init evs).executed ++ (qrun .init evs).queue = submitted evs) ∧
    (∀ s e, s.processing = true → (qstep s e).processing = false →
        s.queue = []) ∧
    (∀ (evs : List QEvent) (e : QEvent),
        (qrun .init evs).processing = true →
        (qrun .init (evs ++ [e])).processing = false →
        (qrun .init (evs ++ [e])).executed = submitted (evs ++ [e])) := by
  refine ⟨?_, ?_, ?_, ?_⟩
  · intro s e
    cases e with
    | enqueue id => left; simp [qstep]
    | work =>
      rcases hp : s.processing with _ | _ <;> rcases hq : s.queue with _ | ⟨t, rest⟩ <;>
        simp [qstep, hp, hq]
    | finish =>
      rcases hp : s.processing with _ | _ <;> rcases hq : s.queue with _ | ⟨t, rest⟩ <;>
        simp [qstep, hp, hq]
  · intro evs
    have h := qrun_executed_append evs .init
    simpa [QueueState.init] using h
  · intro s e hp h
    exact (qstep_processing_stop s e hp h).1
  · intro evs e hp h
    have hq : (qrun .init (evs ++ [e])).queue = [] := by
      rw [qrun_append] at h ⊢
      exact (qstep_processing_stop _ e hp h).2
    have hinv := qrun_executed_append (evs ++ [e]) .init
    rw [hq] at hinv
    simpa [QueueState.init] using hinv

/-- Witness for C1 on a concrete trace: two tasks enqueued, both worked, then
the drain finishes; the drain-pass clause yields that the executed log is the
full submission order. -/
theorem C1_queue_serializes_fifo_and_drains_witness :
    (qrun .init [.enqueue 0, .enqueue 1, .work, .work]).processing = true ∧
    (qrun .init ([.enqueue 0, .enqueue 1, .work, .work] ++ [.finish])).executed
      = submitted ([.enqueue 0, .enqueue 1, .work, .work] ++ [.finish]) :=
  ⟨by decide,
    C1_queue_serializes_fifo_and_drains.2.2.2
      [.enqueue 0, .enqueue 1, .work, .work] .finish (by decide) (by decide)⟩

/- ## Scheduler configuration (`ScreenshotScheduler.loadConfig`, `isOffHours`) -/

/-- JS truthiness of an optional string: `undefined` and `""` are falsy. -/
def strTruthy : Option String → Bool
  | none => false
  | some s => s != ""

/-- JS truthiness of an optional natural number: `undefined` and `0` are
falsy. -/
def natTruthy : Option Nat → Bool
  | none => false
  | some n => n != 0

/-- JS truthiness of an optional rational: `undefined` and `0` are falsy. -/
def ratTruthy : Option ℚ → Bool
  | none => false
  | some q => q != 0

/-- Viewport object of a screenshot configuration; both fields may be absent
or zero, which JS treats as falsy. -/
structure ViewportCfg where
  width : Option Nat
  height : Option Nat
deriving Repr, DecidableEq

/-- One entry of the `screenshots` configuration array, with every field the
scheduler reads.  Absent JSON fields are `none`. -/
structure ScreenshotConfig where
  name : Option String
  path : Option String
  viewport : Option ViewportCfg
  width : Option Nat
  height : Option Nat
  interval : Option ℚ
  wait : Option ℚ
  eink : Option Nat
  invert : Bool
  zoom : Option ℚ
  format : Option String
  rotate : Option Nat
  lang : Option String
  theme : Option String
  dark : Bool
deriving Repr, DecidableEq

/-- The optional `off_hours` object: `start` and `end` as `"HH:MM"` strings. -/
structure OffHoursCfg where
  start : Option String
  «end» : Option String
deriving Repr, DecidableEq

/-- Whole configuration object handed to the scheduler. -/
structure SchedulerConfig where
  screenshots : Option (List ScreenshotConfig)
  off_hours : Option OffHoursCfg
deriving Repr, DecidableEq

/-- The scheduler's time-format regex `([01]?[0-9]|2[0-3]):([0-5][0-9])`
anchored at both ends, decided over the string's characters. -/
def isHHMM (s : String) : Bool :=
  match s.toList with
  | [h, ':', m1, m2] =>
      h.isDigit && ('0' ≤ m1 && m1 ≤ '5') && m2.isDigit
  | [h1, h2, ':', m1, m2] =>
      (((h1 = '0' || h1 = '1') && h2.isDigit) ||
        (h1 = '2' && ('0' ≤ h2 && h2 ≤ '3'))) &&
      ('0' ≤ m1 && m1 ≤ '5') && m2.isDigit
  | _ => false

/-- Whether an `Except` result is a success. -/
def isOkE {ε α : Type} : Except ε α → Bool
  | .ok _ => true
  | .error _ => false

/-- The viewport/interval checks of `loadConfig`'s per-screenshot loop, run
after the viewport object exists (either given or normalized from
`width`/`height`). -/
def checkViewportInterval (s : ScreenshotConfig) (vp : ViewportCfg) :
    Except String ScreenshotConfig :=
  if !natTruthy vp.width || !natTruthy vp.height then
    .error "viewport missing width or height"
  else if !ratTruthy s.interval || decide ((s.interval.getD 0) < 1) then
    .error "missing or invalid interval (must be >= 1 second)"
  else .ok s

/-- Validation of one screenshot entry, mirroring the body of the `forEach`
in `loadConfig`: required `name`, required `path`, viewport given directly or
normalized from separate `width`/`height` fields, then viewport and interval
checks. -/
def validateScreenshot (idx : Nat) (s : ScreenshotConfig) :
    Except String ScreenshotConfig :=
  if !strTruthy s.name then
    .error ("Screenshot at index " ++ toString idx ++ " missing required name")
  else if !strTruthy s.path then
    .error "missing required path"
  else
    match s.viewport with
    | some vp => checkViewportInterval s vp
    | none =>
      if natTruthy s.width && natTruthy s.height then
        checkViewportInterval
          { s with viewport := some ⟨s.width, s.height⟩ } ⟨s.width, s.height⟩
      else .error "missing required viewport or width/height"

/-- Validation of every screenshot entry in order, index threaded as in the
source's `forEach`. -/
def validateAll (idx : Nat) : List ScreenshotConfig →
    Except String (List ScreenshotConfig)
  | [] => .ok []
  | s :: rest =>
    match validateScreenshot idx s with
    | .error e => .error e
    | .ok v =>
      match validateAll (idx + 1) rest with
      | .error e => .error e
      | .ok vs => .ok (v :: vs)

/-- Validation of the optional `off_hours` object: both `start` and `end`
present (truthy) and in `HH:MM` format. -/
def validateOffHours (o : Option OffHoursCfg) :
    Except String (Option OffHoursCfg) :=
  match o with
  | none => .ok none
  | some oh =>
    if !strTruthy oh.start || !strTruthy oh.«end» then
      .error "off_hours must contain both start and end properties"
    else if !isHHMM (oh.start.getD "") then
      .error "Invalid off_hours start time"
    else if !isHHMM (oh.«end».getD "") then
      .error "Invalid off_hours end time"
    else .ok (some oh)

/-- The validation performed by `ScreenshotScheduler.loadConfig`: the
`screenshots` array must exist, the optional `off_hours` window must be well
formed, and every screenshot entry must pass `validateScreenshot`. -/
def loadConfig (cfg : SchedulerConfig) : Except String SchedulerConfig :=
  match cfg.screenshots with
  | none => .error "Configuration must contain a screenshots array property"
  | some shots =>
    match validateOffHours cfg.off_hours with
    | .error e => .error e
    | .ok _ =>
      match validateAll 0 shots with
      | .error e => .error e
      | .ok vs => .ok { cfg with screenshots := some vs }

/-- Spec-side condition on the interval field: present and at least one
second. -/
def intervalOk : Option ℚ → Bool
  | some q => decide (1 ≤ q)
  | none => false

/-- Spec-side success condition for one screenshot entry: truthy name and
path, a viewport whose width and height are truthy (possibly assembled from
the separate `width`/`height` fields), and an interval of at least one
second. -/
def screenshotOk (s : ScreenshotConfig) : Bool :=
  strTruthy s.name && strTruthy s.path &&
  (match s.viewport with
   | some vp => natTruthy vp.width && natTruthy vp.height
   | none => natTruthy s.width && natTruthy s.height) &&
  intervalOk s.interval

/-- Spec-side success condition for the `off_hours` object. -/
def offHoursOk : Option OffHoursCfg → Bool
  | none => true
  | some oh =>
    strTruthy oh.start && strTruthy oh.«end» &&
    isHHMM (oh.start.getD "") && isHHMM (oh.«end».getD "")

theorem interval_clause_eq (q : ℚ) :
    (ratTruthy (some q) && !decide (q < 1)) = decide (1 ≤ q) := by
  by_cases h : (1 : ℚ) ≤ q
  · have hne : q ≠ 0 := by
      intro h0
      rw [h0] at h
      norm_num at h
    simp [ratTruthy, hne, not_lt.mpr h, h]
  · have hlt : q < 1 := not_le.mp h
    simp [ratTruthy, hlt, h]

theorem checkViewportInterval_isOk (s : ScreenshotConfig) (vp : ViewportCfg) :
    isOkE (checkViewportInterval s vp)
      = (natTruthy vp.width && natTruthy vp.height && intervalOk s.interval) := by
  unfold checkViewportInterval
  rcases hw : natTruthy vp.width with _ | _
  · simp [isOkE, hw]
  · rcases hh : natTruthy vp.height with _ | _
    · simp [isOkE, hh]
    · rcases hi : s.interval with _ | q
      · simp [isOkE, hi, ratTruthy, intervalOk]
      · rcases ht : ratTruthy (some q) with _ | _
        · have hq : q = 0 := by simpa [ratTruthy] using ht
          subst hq
          have h10 : ¬ (1 : ℚ) ≤ 0 := by norm_num
          simp [isOkE, ratTruthy, intervalOk, hw, hh, h10]
        · rcases hd : decide (q < 1) with _ | _
          · have h1 : (1 : ℚ) ≤ q := not_lt.mp (of_decide_eq_false hd)
            simp [isOkE, ht, hd, intervalOk, hw, hh, h1]
          · have h1 : q < 1 := of_decide_eq_true hd
            simp [isOkE, ht, hd, intervalOk, hw, hh, not_le.mpr h1]

theorem validateScreenshot_isOk (idx : Nat) (s : ScreenshotConfig) :
    isOkE (validateScreenshot idx s) = screenshotOk s := by
  unfold validateScreenshot screenshotOk
  rcases hn : strTruthy s.name with _ | _
  · simp [isOkE, hn]
  · rcases hp : strTruthy s.path with _ | _
    · simp [isOkE, hn, hp]
    · rcases hv : s.viewport with _ | vp
      · rcases hw : natTruthy s.width with _ | _
        · simp [isOkE, hn, hp, hv, hw]
        · rcases hh : natTruthy s.height with _ | _
          · simp [isOkE, hn, hp, hv, hw, hh]
          · simp [hn, hp, hv, hw, hh, checkViewportInterval_isOk]
      · simp [hn, hp, hv, checkViewportInterval_isOk]

theorem validateAll_isOk (idx : Nat) (l : List ScreenshotConfig) :
    isOkE (validateAll idx l) = l.all screenshotOk := by
  induction l generalizing idx with
  | nil => simp [validateAll, isOkE]
  | cons s rest ih =>
    rcases h1 : validateScreenshot idx s with e | v
    · have := validateScreenshot_isOk idx s
      rw [h1] at this
      simp [validateAll, h1, isOkE, ← this]
    · have hok := validateScreenshot_isOk idx s
      rw [h1] at hok
      rcases h2 : validateAll (idx + 1) rest with e2 | vs
      · have := ih (idx + 1)
        rw [h2] at this
        simp [validateAll, h1, h2, isOkE, ← hok, ← this]
      · have := ih (idx + 1)
        rw [h2] at this
        simp [validateAll, h1, h2, isOkE, ← hok, ← this]

theorem validateOffHours_isOk (o : Option OffHoursCfg) :
    isOkE (validateOffHours o) = offHoursOk o := by
  rcases o with _ | oh
  · simp [validateOffHours, offHoursOk, isOkE]
  · unfold validateOffHours offHoursOk
    rcases hs : strTruthy oh.start with _ | _ <;>
      rcases he : strTruthy oh.«end» with _ | _ <;>
        rcases h1 : isHHMM (oh.start.getD "") with _ | _ <;>
          rcases h2 : isHHMM (oh.«end».getD "") with _ | _ <;>
            simp [isOkE, hs, he, h1, h2]

/-- C2 counterexample data: two entries with the same name, a 50×50 viewport
(below the documented 100-pixel minimum), a `wait` of 999999 ms (above the
documented 30000 maximum) and a `zoom` of 100 (above the documented 5.0
maximum). -/
def dupJobA : ScreenshotConfig :=
  { name := some "trmnl", path := some "/lovelace/0",
    viewport := some { width := some 50, height := some 50 },
    width := none, height := none,
    interval := some 60, wait := some 999999, eink := some 2, invert := false,
    zoom := some 100, format := some "bmp", rotate := none,
    lang := none, theme := none, dark := false }

/-- Second entry of the counterexample configuration, duplicating the name. -/
def dupJobB : ScreenshotConfig := { dupJobA with path := some "/lovelace/1" }

/-- The counterexample configuration as a whole. -/
def badConfig : SchedulerConfig :=
  { screenshots := some [dupJobA, dupJobB], off_hours := none }

/-- C2 counterexample: `loadConfig` accepts a configuration with a duplicated
job name, a viewport width and height of 50 (outside [100,7680]×[100,4320]),
a wait of 999999 ms (outside 0–30000) and a zoom of 100 (outside 0.1–5.0), so
the claim that such configurations are rejected is false of the code. -/
theorem C2_counterexample_loadConfig_accepts_bad :
    isOkE (loadConfig badConfig) = true ∧
    dupJobA.name = dupJobB.name ∧
    dupJobA.viewport = some ⟨some 50, some 50⟩ ∧ (50 : Nat) < 100 ∧
    dupJobA.wait = some 999999 ∧ (30000 : ℚ) < 999999 ∧
    dupJobA.zoom = some 100 ∧ (5 : ℚ) < 100 := by
  refine ⟨by decide, by decide, by decide, by norm_num, by decide, by norm_num,
    by decide, by norm_num⟩

/-- C2 as amended: `loadConfig` succeeds exactly when the `screenshots` array
exists, the optional `off_hours` object is well formed, and every entry has a
truthy name, a truthy path, a viewport with truthy width and height (either
given or assembled from the separate `width`/`height` fields) and an interval
of at least one second.  Duplicate names and the documented numeric bounds on
viewport, wait and zoom are not checked at load time (duplicates are skipped
with a warning when the job is later scheduled). -/
theorem C2_loadConfig_success_characterization (cfg : SchedulerConfig) :
    isOkE (loadConfig cfg) = true ↔
      ∃ shots, cfg.screenshots = some shots ∧
        offHoursOk cfg.off_hours = true ∧
        ∀ s ∈ shots, screenshotOk s = true := by
  rcases hs : cfg.screenshots with _ | shots
  · simp [loadConfig, hs, isOkE]
  · constructor
    · intro h
      refine ⟨shots, rfl, ?_, ?_⟩
      · rcases hoh : validateOffHours cfg.off_hours with e | v
        · simp [loadConfig, hs, hoh, isOkE] at h
        · have := validateOffHours_isOk cfg.off_hours
          rw [hoh] at this
          simp [isOkE] at this
          exact this
      · intro s hmem
        rcases hoh : validateOffHours cfg.off_hours with e | v
        · simp [loadConfig, hs, hoh, isOkE] at h
        · rcases hva : validateAll 0 shots with e2 | vs
          · simp [loadConfig, hs, hoh, hva, isOkE] at h
          · have := validateAll_isOk 0 shots
            rw [hva] at this
            simp [isOkE] at this
            exact this s hmem
    · rintro ⟨shots2, hseq, hoh, hall⟩
      have hsame : shots2 = shots := (Option.some_inj.mp hseq).symm
      subst hsame
      rcases hohr : validateOffHours cfg.off_hours with e | v
      · have := validateOffHours_isOk cfg.off_hours
        rw [hohr, hoh] at this
        simp [isOkE] at this
      · rcases hva : validateAll 0 shots2 with e2 | vs
        · have := validateAll_isOk 0 shots2
          rw [hva] at this
          have hall2 : shots2.all screenshotOk = true :=
            List.all_eq_true.mpr hall
          rw [hall2] at this
          simp [isOkE] at this
        · simp [loadConfig, hs, hohr, hva, isOkE]

/-- Concrete well-formed screenshot entry used to witness the amended C2. -/
def goodJob : ScreenshotConfig :=
  { name := some "kitchen", path := some "/lovelace/0",
    viewport := some ⟨some 800, some 480⟩, width := none, height := none,
    interval := some 300, wait := none, eink := none, invert := false,
    zoom := none, format := none, rotate := none, lang := none,
    theme := none, dark := false }

/-- Concrete well-formed configuration used to witness the amended C2. -/
def goodConfig : SchedulerConfig :=
  { screenshots := some [goodJob],
    off_hours := some { start := some "22:00", «end» := some "06:00" } }

/-- Witness for the amended C2 on a concrete well-formed configuration. -/
theorem C2_loadConfig_success_characterization_witness :
    isOkE (loadConfig goodConfig) = true :=
  (C2_loadConfig_success_characterization goodConfig).mpr
    ⟨[goodJob], by decide, by decide, by decide⟩

/- ## Off-hours predicate (`ScreenshotScheduler.isOffHours`) -/

/-- Decimal reading of a digit string, as `Number` does on the digit-only
strings admitted by the scheduler's time regex. -/
def digitsToNat (cs : List Char) : Nat :=
  cs.foldl (fun acc c => acc * 10 + (c.toNat - 48)) 0

/-- The scheduler's time parsing `t.split(':').map(Number)` followed by
`hour * 60 + min`, yielding a minute-of-day value. -/
def parseTimeMinutes (s : String) : Nat :=
  match s.toList.splitOn ':' with
  | [h, m] => digitsToNat h * 60 + digitsToNat m
  | _ => 0

/-- The off-hours predicate `ScreenshotScheduler.isOffHours`, with the
current wall-clock minute-of-day passed explicitly.  With no window it is
false; with `start ≤ end` it tests the same-day range; otherwise the range
wraps midnight. -/
def isOffHours (offHours : Option OffHoursCfg) (currentMinutes : Nat) : Bool :=
  match offHours with
  | none => false
  | some oh =>
    let startMinutes := parseTimeMinutes (oh.start.getD "")
    let endMinutes := parseTimeMinutes (oh.«end».getD "")
    if startMinutes ≤ endMinutes then
      decide (currentMinutes ≥ startMinutes) && decide (currentMinutes < endMinutes)
    else
      decide (currentMinutes ≥ startMinutes) || decide (currentMinutes < endMinutes)

/-- C4: with a window whose parsed start and end minutes satisfy
`start ≤ end`, the predicate holds exactly on `[start, end)`; with
`start > end` it holds exactly on `[start, 1440) ∪ [0, end)` (equivalently
`t ≥ start ∨ t < end`); without a window it is always false.  For the
09:00–17:00 window exactly minutes 540–1019 are suppressed, 539 and 1020 are
not; for the 22:00–06:00 window 23:00 and 05:00 are suppressed, 06:00 and
21:59 are not. -/
theorem C4_off_hours_predicate :
    (∀ (oh : OffHoursCfg) (t : Nat),
      (parseTimeMinutes (oh.start.getD "") ≤ parseTimeMinutes (oh.«end».getD "") →
        (isOffHours (some oh) t = true ↔
          parseTimeMinutes (oh.start.getD "") ≤ t ∧
          t < parseTimeMinutes (oh.«end».getD ""))) ∧
      (parseTimeMinutes (oh.«end».getD "") < parseTimeMinutes (oh.start.getD "") →
        (isOffHours (some oh) t = true ↔
          t ≥ parseTimeMinutes (oh.start.getD "") ∨
          t < parseTimeMinutes (oh.«end».getD "")))) ∧
    (∀ t, isOffHours none t = false) ∧
    (∀ t, isOffHours (some ⟨some "09:00", some "17:00"⟩) t = true ↔
      540 ≤ t ∧ t < 1020) ∧
    isOffHours (some ⟨some "09:00", some "17:00"⟩) 539 = false ∧
    isOffHours (some ⟨some "09:00", some "17:00"⟩) 540 = true ∧
    isOffHours (some ⟨some "09:00", some "17:00"⟩) 1019 = true ∧
    isOffHours (some ⟨some "09:00", some "17:00"⟩) 1020 = false ∧
    isOffHours (some ⟨some "22:00", some "06:00"⟩) 1380 = true ∧
    isOffHours (some ⟨some "22:00", some "06:00"⟩) 300 = true ∧
    isOffHours (some ⟨some "22:00", some "06:00"⟩) 360 = false ∧
    isOffHours (some ⟨some "22:00", some "06:00"⟩) 1319 = false := by
  refine ⟨?_, ?_, ?_, by decide, by decide, by decide, by decide, by decide,
    by decide, by decide, by decide⟩
  · intro oh t
    constructor
    · intro hle
      simp [isOffHours, hle]
    · intro hlt
      have : ¬ parseTimeMinutes (oh.start.getD "") ≤
          parseTimeMinutes (oh.«end».getD "") := by omega
      simp [isOffHours, this]
  · intro t
    simp [isOffHours]
  · intro t
    have h09 : parseTimeMinutes "09:00" = 540 := by decide
    have h17 : parseTimeMinutes "17:00" = 1020 := by decide
    simp [isOffHours, h09, h17]

/-- Witness for C4 at the 09:00–17:00 window and minute 600: the same-day
clause yields suppression. -/
theorem C4_off_hours_predicate_witness :
    parseTimeMinutes ((some "09:00").getD "") ≤
      parseTimeMinutes ((some "17:00").getD "") ∧
    (isOffHours (some ⟨some "09:00", some "17:00"⟩) 600 = true ↔
      parseTimeMinutes ((some "09:00").getD "") ≤ 600 ∧
      600 < parseTimeMinutes ((some "17:00").getD "")) :=
  ⟨by decide,
    (C4_off_hours_predicate.1 ⟨some "09:00", some "17:00"⟩ 600).1 (by decide)⟩

/- ## Browser session navigation (`Browser._navigatePage`) -/

/-- The session cache fields of the `Browser` object.  `none` models the
JS `undefined` ("unset"); `lastRequestedDarkMode` starts out `undefined` even
though the `dark` parameter is always a boolean, so it is an `Option Bool`. -/
structure SessionState where
  lastRequestedPath : Option String
  lastRequestedLang : Option String
  lastRequestedTheme : Option String
  lastRequestedDarkMode : Option Bool
deriving Repr, DecidableEq

/-- Session state of a fresh `Browser`: everything unset. -/
def SessionState.fresh : SessionState := ⟨none, none, none, none⟩

/-- Parameters of `_navigatePage` that affect the session cache and waits.
The viewport is omitted: it only feeds `page.setViewport` and never touches
the session cache or the control flow modelled here. -/
structure NavParams where
  pagePath : String
  extraWait : Option Nat
  lang : Option String
  theme : Option String
  dark : Bool
deriving Repr, DecidableEq

/-- Environment oracle for one navigation: whether this process runs as the
add-on, whether `page.goto` returns a success response (and the status it
carries otherwise), and whether an update toast is present to dismiss. -/
structure NavEnv where
  isAddOn : Bool
  responseOk : Bool
  responseStatus : Nat
  toastPresent : Bool
deriving Repr, DecidableEq

/-- The error thrown by `_navigatePage` when `page.goto` returns a
non-success response (`CannotOpenPageError`), carrying status and the
requested path. -/
inductive NavError where
  | cannotOpenPage (status : Nat) (path : String)
deriving Repr, DecidableEq

/-- Observable effects of one successful `_navigatePage` run: which
navigation case occurred, which page interactions were performed, the final
`defaultWait`, and the wait actually applied (`extraWait` or the default). -/
structure NavResult where
  openedNewPage : Bool
  changedPath : Bool
  zoomApplied : Bool
  langApplied : Bool
  themeApplied : Bool
  defaultWait : Nat
  appliedWait : Nat
deriving Repr, DecidableEq

/-- Shared tail of `_navigatePage` after the three-way navigation case split:
update `lastRequestedPath`, dismiss a toast when not freshly opened (adding
1000 ms), set the zoom level unconditionally, apply language and theme/dark
mode exactly when they differ from the cached values — updating the cache
immediately after each application — and resolve the applied wait. -/
def navigateCommon (p : NavParams) (env : NavEnv) (st : SessionState)
    (openedNewPage changedPath : Bool) (dw : Nat) :
    SessionState × Except NavError NavResult :=
  let st1 := { st with lastRequestedPath := some p.pagePath }
  let toastDismissed := !openedNewPage && env.toastPresent
  let dw1 := if toastDismissed then dw + 1000 else dw
  let langApplied := p.lang ≠ st1.lastRequestedLang
  let st2 := if langApplied then { st1 with lastRequestedLang := p.lang } else st1
  let dw2 := if langApplied then dw1 + 1000 else dw1
  let themeApplied :=
    p.theme ≠ st2.lastRequestedTheme ∨ some p.dark ≠ st2.lastRequestedDarkMode
  let st3 :=
    if themeApplied then
      { st2 with lastRequestedTheme := p.theme,
                 lastRequestedDarkMode := some p.dark }
    else st2
  let dw3 := if themeApplied then dw2 + 500 else dw2
  (st3, .ok
    { openedNewPage := openedNewPage, changedPath := changedPath,
      zoomApplied := true, langApplied := decide langApplied,
      themeApplied := decide themeApplied, defaultWait := dw3,
      appliedWait := p.extraWait.getD dw3 })

/-- The navigation state machine of `_navigatePage`.  Case 1 (`lastPath`
unset): first load, with authentication injection and a full `page.goto`; a
non-success response throws `CannotOpenPageError` before `lastRequestedPath`
is assigned.  Case 2 (set, different path): full reload, same failure mode.
Case 3 (set, same path): no load at all and a base default wait of zero.  The
source's `catch` block rethrows without touching the session cache. -/
def navigatePage (p : NavParams) (env : NavEnv) (st : SessionState) :
    SessionState × Except NavError NavResult :=
  match st.lastRequestedPath with
  | none =>
    if !env.responseOk then
      (st, .error (.cannotOpenPage env.responseStatus p.pagePath))
    else
      navigateCommon p env st true false
        ((if env.isAddOn then 2000 else 1000) + (if env.isAddOn then 5000 else 0))
  | some last =>
    if last ≠ p.pagePath then
      if !env.responseOk then
        (st, .error (.cannotOpenPage env.responseStatus p.pagePath))
      else
        navigateCommon p env st false true (if env.isAddOn then 3000 else 2000)
    else
      navigateCommon p env st false false 0

/-- Decidable equality for `Except`, used to evaluate navigation outcomes at
concrete inputs. -/
instance instDecEqExcept {ε α : Type} [DecidableEq ε] [DecidableEq α] :
    DecidableEq (Except ε α)
  | .ok a, .ok b =>
    if h : a = b then isTrue (by rw [h])
    else isFalse (by intro hc; cases hc; exact h rfl)
  | .ok _, .error _ => isFalse (by intro h; cases h)
  | .error _, .ok _ => isFalse (by intro h; cases h)
  | .error e, .error f =>
    if h : e = f then isTrue (by rw [h])
    else isFalse (by intro hc; cases hc; exact h rfl)

/-- Session cache holding an old path, used by the C3 counterexample. -/
def stOnA : SessionState :=
  ⟨some "/lovelace/0", none, none, some false⟩

/-- Navigation request to a different path, used by the C3 counterexample. -/
def navToB : NavParams :=
  { pagePath := "/lovelace/1", extraWait := none, lang := none,
    theme := none, dark := false }

/-- Environment in which `page.goto` returns HTTP 404. -/
def failEnv : NavEnv :=
  { isAddOn := false, responseOk := false, responseStatus := 404,
    toastPresent := false }

/-- C3 counterexample: a page-transition navigation (cached path
`/lovelace/0`, target `/lovelace/1`) whose `page.goto` fails raises
`CannotOpenPageError`, but `lastRequestedPath` is NOT reset to unset — it
still holds the old path `/lovelace/0` when the error surfaces, because the
`catch` in `_navigatePage` only rethrows and the reset exists only in
`_screenshotPage`. -/
theorem C3_counterexample_nav_error_keeps_old_path :
    (navigatePage navToB failEnv stOnA).2
      = .error (.cannotOpenPage 404 "/lovelace/1") ∧
    (navigatePage navToB failEnv stOnA).1.lastRequestedPath
      = some "/lovelace/0" ∧
    some "/lovelace/0" ≠ (none : Option String) := by
  refine ⟨by decide, by decide, by decide⟩

/-- C3 as amended: a navigation error leaves the whole session cache exactly
as it was — in particular a failed first load leaves `lastPath` unset, while
a failed page transition keeps the previous path (it is not reset to unset;
only capture errors reset it, in `_screenshotPage`). -/
theorem C3_nav_error_leaves_session_unchanged (p : NavParams) (env : NavEnv)
    (st : SessionState) (e : NavError)
    (h : (navigatePage p env st).2 = .error e) :
    (navigatePage p env st).1 = st := by
  unfold navigatePage at h ⊢
  rcases hlast : st.lastRequestedPath with _ | last
  · rcases hok : env.responseOk with _ | _
    · simp [hlast, hok]
    · simp [hlast, hok, navigateCommon] at h
  · rcases hne : decide (last ≠ p.pagePath) with _ | _
    · have : ¬ last ≠ p.pagePath := of_decide_eq_false hne
      simp [hlast, this, navigateCommon] at h
    · have hd : last ≠ p.pagePath := of_decide_eq_true hne
      rcases hok : env.responseOk with _ | _
      · simp [hlast, hd, hok]
      · simp [hlast, hd, hok, navigateCommon] at h

/-- Witness for the amended C3 at the concrete counterexample input. -/
theorem C3_nav_error_leaves_session_unchanged_witness :
    (navigatePage navToB failEnv stOnA).2
      = Except.error (.cannotOpenPage 404 "/lovelace/1") ∧
    (navigatePage navToB failEnv stOnA).1 = stOnA :=
  ⟨by decide,
    C3_nav_error_leaves_session_unchanged navToB failEnv stOnA
      (.cannotOpenPage 404 "/lovelace/1") (by decide)⟩

/-- Session cache matching the request of the C6 counterexample. -/
def stSame : SessionState :=
  ⟨some "/lovelace/0", some "en", some "default", some false⟩

/-- Same-path navigation request whose language, theme and dark mode all
equal the cached values. -/
def navSame : NavParams :=
  { pagePath := "/lovelace/0", extraWait := none, lang := some "en",
    theme := some "default", dark := false }

/-- Environment with a dismissable update toast present. -/
def toastEnv : NavEnv :=
  { isAddOn := false, responseOk := true, responseStatus := 200,
    toastPresent := true }

/-- C6 counterexample: on a same-path navigation with language, theme and
dark mode all equal to the cached values, dismissing an update toast makes
the default extra wait 1000 ms, not zero; moreover the zoom style is applied
unconditionally (`zoomApplied = true`) even though nothing differs from the
cache, so "zoom … re-applied only when it differs" does not hold either. -/
theorem C6_counterexample_same_path_wait_not_zero :
    (navigatePage navSame toastEnv stSame).2
      = .ok { openedNewPage := false, changedPath := false,
              zoomApplied := true, langApplied := false,
              themeApplied := false, defaultWait := 1000,
              appliedWait := 1000 } ∧
    (1000 : Nat) ≠ 0 := by
  refine ⟨by decide, by decide⟩

/-- C6 as amended: a same-path navigation performs no page load or reload and
cannot fail; its base default wait is zero, with 1000 ms added only if an
update toast was dismissed, 1000 ms if the language had to be re-applied and
500 ms if theme/dark mode had to be; language is re-applied exactly when it
differs from the cached value and theme/dark mode exactly when either
differs, the cache being updated immediately afterwards (so it ends at the
requested values); zoom is re-applied unconditionally. -/
theorem C6_same_path_no_reload (p : NavParams) (env : NavEnv)
    (st : SessionState) (hsame : st.lastRequestedPath = some p.pagePath) :
    navigatePage p env st =
      (⟨some p.pagePath, p.lang, p.theme, some p.dark⟩,
        .ok { openedNewPage := false, changedPath := false,
              zoomApplied := true,
              langApplied := decide (p.lang ≠ st.lastRequestedLang),
              themeApplied := decide (p.theme ≠ st.lastRequestedTheme ∨
                some p.dark ≠ st.lastRequestedDarkMode),
              defaultWait :=
                (if env.toastPresent then 1000 else 0) +
                (if p.lang ≠ st.lastRequestedLang then 1000 else 0) +
                (if p.theme ≠ st.lastRequestedTheme ∨
                    some p.dark ≠ st.lastRequestedDarkMode then 500 else 0),
              appliedWait := p.extraWait.getD
                ((if env.toastPresent then 1000 else 0) +
                (if p.lang ≠ st.lastRequestedLang then 1000 else 0) +
                (if p.theme ≠ st.lastRequestedTheme ∨
                    some p.dark ≠ st.lastRequestedDarkMode then 500 else 0)) }) := by
  by_cases hl : p.lang = st.lastRequestedLang <;>
    by_cases h1 : p.theme = st.lastRequestedTheme <;>
      by_cases h2 : some p.dark = st.lastRequestedDarkMode <;>
        rcases htoast : env.toastPresent with _ | _ <;>
          simp [navigatePage, navigateCommon, hsame, hl, h1, h2, htoast]

/-- Witness for the amended C6: same-path navigation with matching cache and
no toast yields a zero default wait and no re-applications. -/
theorem C6_same_path_no_reload_witness :
    SessionState.lastRequestedPath
        ⟨some "/lovelace/0", some "en", some "default", some false⟩
      = some "/lovelace/0" ∧
    navigatePage navSame
        { isAddOn := false, responseOk := true, responseStatus := 200,
          toastPresent := false }
        ⟨some "/lovelace/0", some "en", some "default", some false⟩
      = (⟨some "/lovelace/0", some "en", some "default", some false⟩,
          .ok { openedNewPage := false, changedPath := false,
                zoomApplied := true, langApplied := false,
                themeApplied := false, defaultWait := 0,
                appliedWait := 0 }) := by
  refine ⟨by decide, ?_⟩
  have h := C6_same_path_no_reload navSame
    { isAddOn := false, responseOk := true, responseStatus := 200,
      toastPresent := false }
    ⟨some "/lovelace/0", some "en", some "default", some false⟩ (by decide)
  rw [h]
  decide

/- ## Screenshot pipeline (`Browser._screenshotPage`) -/

/-- Parameters of `_screenshotPage` that drive post-processing. -/
structure ShotParams where
  einkColors : Option Nat
  invert : Bool
  format : String
  rotate : Option Nat
deriving Repr, DecidableEq

/-- The fixed eink color-count → bit-depth table in `_screenshotPage`:
default 8, with 2 → 1, 4 → 2 and 16 → 4. -/
def einkBitsPerPixel (einkColors : Nat) : Nat :=
  if einkColors = 2 then 1
  else if einkColors = 4 then 2
  else if einkColors = 16 then 4
  else 8

/-- The bit depth handed to `BMPEncoder`, when the bmp output path is taken:
the eink table under a truthy `einkColors`, 24 without one, and no bmp
encoding at all for other formats. -/
def bmpBitDepth (einkColors : Option Nat) (format : String) : Option Nat :=
  if natTruthy einkColors then
    if format = "bmp" then some (einkBitsPerPixel (einkColors.getD 0)) else none
  else if format = "bmp" then some 24 else none

/-- Pixel effect of sharp's `threshold(220, greyscale)`: luminance at or
above the cutoff becomes 255, below becomes 0. -/
def thresholdPixel (lum : Nat) : Nat := if 220 ≤ lum then 255 else 0

/-- Pixel effect of sharp's `negate` (alpha excluded). -/
def negatePixel (v : Nat) : Nat := 255 - v

/-- The 2-color e-ink branch of `_screenshotPage`: threshold every pixel's
luminance, then negate when `invert` is set. -/
def eink2Pipeline (invert : Bool) (lums : List Nat) : List Nat :=
  let t := lums.map thresholdPixel
  if invert then t.map negatePixel else t

/-- Environment oracle for one screenshot: the outcome of the capture and
post-processing steps inside the `try`, carrying the frame's luminance
pixels on success. -/
structure ShotEnv where
  captureResult : Except String (List Nat)
deriving Repr, DecidableEq

/-- Observable output of a successful `_screenshotPage` run: the processed
pixels, whether the black/white colourspace was applied, and the bit depth
handed to `BMPEncoder` (if the bmp path was taken). -/
structure ShotResult where
  pixels : List Nat
  colourspaceBW : Bool
  bmpDepth : Option Nat
deriving Repr, DecidableEq

/-- The `_screenshotPage` body: on any error of the capture/processing chain
the `catch` sets `lastRequestedPath = undefined` and rethrows the same
error; on success it applies the 2-color pipeline when `einkColors === 2`,
marks the black/white colourspace in that case, and resolves the bmp bit
depth. -/
def screenshotPage (p : ShotParams) (env : ShotEnv) (st : SessionState) :
    SessionState × Except String ShotResult :=
  match env.captureResult with
  | .error e => ({ st with lastRequestedPath := none }, .error e)
  | .ok frame =>
    (st, .ok
      { pixels := if p.einkColors = some 2 then eink2Pipeline p.invert frame
                  else frame,
        colourspaceBW := decide (p.einkColors = some 2),
        bmpDepth := bmpBitDepth p.einkColors p.format })

/-- C7: on every capture or post-processing error, `_screenshotPage` resets
`lastRequestedPath` to unset — the other cached fields untouched — and
re-raises the very same error, so the reset is in place before the error
reaches the caller. -/
theorem C7_capture_error_resets_lastPath (p : ShotParams) (env : ShotEnv)
    (st : SessionState) (e : String) (h : env.captureResult = .error e) :
    screenshotPage p env st
      = ({ st with lastRequestedPath := none }, .error e) := by
  unfold screenshotPage
  rw [h]

/-- Witness for C7 at a concrete failing capture. -/
theorem C7_capture_error_resets_lastPath_witness :
    ShotEnv.captureResult ⟨.error "Protocol error"⟩
      = .error "Protocol error" ∧
    screenshotPage ⟨some 2, false, "bmp", none⟩ ⟨.error "Protocol error"⟩
        stOnA
      = ({ stOnA with lastRequestedPath := none }, .error "Protocol error") :=
  ⟨rfl,
    C7_capture_error_resets_lastPath ⟨some 2, false, "bmp", none⟩
      ⟨.error "Protocol error"⟩ stOnA "Protocol error" rfl⟩

/-- C8: on the bmp output path the eink color count fixes the bit depth
handed to the bitmap encoder as 2 → 1, 4 → 2, 16 → 4, 256 → 8 — and 8 for
every other (truthy) `einkColors` value — while without `einkColors` the bmp
path uses 24-bit depth; and `_screenshotPage` resolves its bmp depth by
exactly this mapping. -/
theorem C8_bmp_bit_depth_mapping :
    bmpBitDepth (some 2) "bmp" = some 1 ∧
    bmpBitDepth (some 4) "bmp" = some 2 ∧
    bmpBitDepth (some 16) "bmp" = some 4 ∧
    bmpBitDepth (some 256) "bmp" = some 8 ∧
    (∀ n : Nat, n ≠ 0 → n ≠ 2 → n ≠ 4 → n ≠ 16 →
      bmpBitDepth (some n) "bmp" = some 8) ∧
    bmpBitDepth none "bmp" = some 24 ∧
    (∀ (p : ShotParams) (st : SessionState) (frame : List Nat),
      (screenshotPage p ⟨.ok frame⟩ st).2
        = .ok { pixels := if p.einkColors = some 2
                            then eink2Pipeline p.invert frame else frame,
                colourspaceBW := decide (p.einkColors = some 2),
                bmpDepth := bmpBitDepth p.einkColors p.format }) := by
  refine ⟨by decide, by decide, by decide, by decide, ?_, by decide, ?_⟩
  · intro n h0 h2 h4 h16
    simp [bmpBitDepth, natTruthy, einkBitsPerPixel, h0, h2, h4, h16]
  · intro p st frame
    rfl

/-- Witness for C8 at the unmapped count 7: the default depth 8 is used. -/
theorem C8_bmp_bit_depth_mapping_witness :
    (7 : Nat) ≠ 0 ∧ (7 : Nat) ≠ 2 ∧ (7 : Nat) ≠ 4 ∧ (7 : Nat) ≠ 16 ∧
    bmpBitDepth (some 7) "bmp" = some 8 :=
  ⟨by decide, by decide, by decide, by decide,
    C8_bmp_bit_depth_mapping.2.2.2.2.1 7 (by decide) (by decide) (by decide)
      (by decide)⟩

/-- C9: the 2-color pipeline thresholds grayscale luminance at 220 of 255 —
below the cutoff becomes black (0), at or above becomes white (255) — so the
frame [200, 230] yields [black, white], and with `invert` the result is
negated to [white, black]; `_screenshotPage` marks that output black/white
1-bit (`b-w` colourspace, bit depth 1 on the bmp path). -/
theorem C9_eink2_threshold_invert_onebit :
    (∀ l : Nat, l < 220 → thresholdPixel l = 0) ∧
    (∀ l : Nat, 220 ≤ l → thresholdPixel l = 255) ∧
    eink2Pipeline false [200, 230] = [0, 255] ∧
    eink2Pipeline true [200, 230] = [255, 0] ∧
    (∀ (st : SessionState) (frame : List Nat) (inv : Bool),
      (screenshotPage ⟨some 2, inv, "bmp", none⟩ ⟨.ok frame⟩ st).2
        = .ok { pixels := eink2Pipeline inv frame,
                colourspaceBW := true, bmpDepth := some 1 }) := by
  refine ⟨?_, ?_, by decide, by decide, ?_⟩
  · intro l h
    simp [thresholdPixel, Nat.not_le.mpr h]
  · intro l h
    simp [thresholdPixel, h]
  · intro st frame inv
    rfl

/-- Witness for C9 at luminances 200 and 230 through the pipeline. -/
theorem C9_eink2_threshold_invert_onebit_witness :
    (200 : Nat) < 220 ∧ thresholdPixel 200 = 0 ∧
    (220 : Nat) ≤ 230 ∧ thresholdPixel 230 = 255 :=
  ⟨by decide, C9_eink2_threshold_invert_onebit.1 200 (by decide),
    by decide, C9_eink2_threshold_invert_onebit.2.1 230 (by decide)⟩

/- ## Scheduled firings (`captureScreenshot` / `scheduleJob` / timers) -/

/-- Outcome record of one job firing, as returned by
`ScreenshotScheduler.captureScreenshot`. -/
structure Outcome where
  success : Bool
  skipped : Bool
  reason : Option String
  savedPath : Option String
  savedUrl : Option String
  errorMsg : Option String
deriving Repr, DecidableEq

/-- Environment oracle for one firing: the off-hours predicate at firing
time, the outcome of the atomic navigate+screenshot, the outcome of the file
save, and the (pure) local URL. -/
structure FireEnv where
  offHoursNow : Bool
  navShot : Except String (List Nat)
  save : Except String String
  localUrl : String
deriving Repr, DecidableEq

/-- The body of the `try` block in `captureScreenshot`: navigate+screenshot,
then save, short-circuiting on the first error. -/
def captureAttempt (env : FireEnv) : Except String Outcome :=
  match env.navShot with
  | .error e => .error e
  | .ok _ =>
    match env.save with
    | .error e => .error e
    | .ok path =>
      .ok { success := true, skipped := false, reason := none,
            savedPath := some path, savedUrl := some env.localUrl,
            errorMsg := none }

/-- `ScreenshotScheduler.captureScreenshot`: off-hours firings are skipped
before any browser or disk work; otherwise the `try` body runs and its
`catch` converts any error into a `success: false` outcome record.  The
function is total: no error escapes it. -/
def captureScreenshot (env : FireEnv) : Outcome :=
  if env.offHoursNow then
    { success := false, skipped := true, reason := some "off-hours",
      savedPath := none, savedUrl := none, errorMsg := none }
  else
    match captureAttempt env with
    | .ok o => o
    | .error e =>
      { success := false, skipped := false, reason := none,
        savedPath := none, savedUrl := none, errorMsg := some e }

/-- Scheduler state: the names holding a registered interval timer, plus the
shutdown flag consulted before each firing. -/
structure SchedState where
  jobs : List String
  isShuttingDown : Bool
deriving Repr, DecidableEq

/-- `scheduleJob`: register the job's timer unless the name already has one
(duplicates are skipped with a warning, not an error). -/
def scheduleJob (s : SchedState) (name : String) : SchedState :=
  if name ∈ s.jobs then s else { s with jobs := s.jobs ++ [name] }

/-- One firing of a job's interval timer: unless shutting down, run
`captureScreenshot`.  The set of registered timers is never modified by a
firing, whatever its outcome. -/
def timerFire (s : SchedState) (env : FireEnv) : SchedState × Option Outcome :=
  if s.isShuttingDown then (s, none) else (s, some (captureScreenshot env))

/-- C5: every error in a firing — navigation/capture or file save — is
converted into a `success: false, error: …` outcome record instead of
propagating out of `captureScreenshot`; a firing never changes the set of
registered timers (so a failure cancels neither the failing job's recurring
timer nor anything else); and a job's firing outcome is unaffected by any
other firing that ran before it. -/
theorem C5_firing_errors_contained :
    (∀ (env : FireEnv) (e : String), env.offHoursNow = false →
      env.navShot = .error e →
      captureScreenshot env
        = { success := false, skipped := false, reason := none,
            savedPath := none, savedUrl := none, errorMsg := some e }) ∧
    (∀ (env : FireEnv) (img : List Nat) (e : String),
      env.offHoursNow = false → env.navShot = .ok img →
      env.save = .error e →
      captureScreenshot env
        = { success := false, skipped := false, reason := none,
            savedPath := none, savedUrl := none, errorMsg := some e }) ∧
    (∀ (s : SchedState) (env : FireEnv), (timerFire s env).1 = s) ∧
    (∀ (s : SchedState) (envX envY : FireEnv),
      (timerFire (timerFire s envX).1 envY).2 = (timerFire s envY).2) := by
  refine ⟨?_, ?_, ?_, ?_⟩
  · intro env e hoff hnav
    simp [captureScreenshot, captureAttempt, hoff, hnav]
  · intro env img e hoff hnav hsave
    simp [captureScreenshot, captureAttempt, hoff, hnav, hsave]
  · intro s env
    unfold timerFire
    rcases h : s.isShuttingDown with _ | _ <;> simp [h]
  · intro s envX envY
    have h1 : (timerFire s envX).1 = s := by
      unfold timerFire
      rcases h : s.isShuttingDown with _ | _ <;> simp [h]
    rw [h1]

/-- Witness for C5 at a concrete failing navigation. -/
theorem C5_firing_errors_contained_witness :
    FireEnv.offHoursNow
        ⟨false, .error "CannotOpenPageError 404", .ok "/config/www/x.png", "u"⟩
      = false ∧
    FireEnv.navShot
        ⟨false, .error "CannotOpenPageError 404", .ok "/config/www/x.png", "u"⟩
      = .error "CannotOpenPageError 404" ∧
    captureScreenshot
        ⟨false, .error "CannotOpenPageError 404", .ok "/config/www/x.png", "u"⟩
      = { success := false, skipped := false, reason := none,
          savedPath := none, savedUrl := none,
          errorMsg := some "CannotOpenPageError 404" } :=
  ⟨rfl, rfl,
    C5_firing_errors_contained.1
      ⟨false, .error "CannotOpenPageError 404", .ok "/config/www/x.png", "u"⟩
      "CannotOpenPageError 404" rfl rfl⟩

/- ## Bitmap encoder (`bmp.js`) -/

/-- Round a byte count up to the next 4-byte boundary. -/
def padTo4 (n : Nat) : Nat := (n + 3) / 4 * 4

/-- Stored size of one pixel row: the packed bits rounded up to whole bytes,
padded to a 4-byte boundary. -/
def bmpRowSize (width bitsPerPixel : Nat) : Nat :=
  padTo4 ((width * bitsPerPixel + 7) / 8)

/-- Two little-endian bytes of a 16-bit value. -/
def toLE2 (n : Nat) : List Nat := [n % 256, n / 256 % 256]

/-- Four little-endian bytes of a 32-bit value. -/
def toLE4 (n : Nat) : List Nat :=
  [n % 256, n / 256 % 256, n / 65536 % 256, n / 16777216 % 256]

/-- Number of color table entries: `2^depth` for the indexed depths (≤ 8),
none for 24-bit. -/
def paletteEntries (bitsPerPixel : Nat) : Nat :=
  if bitsPerPixel ≤ 8 then 2 ^ bitsPerPixel else 0

/-- Grayscale ramp value of palette index `i`: `i * 255 / (2^depth - 1)`, so
index 0 is black and the top index is white. -/
def paletteValue (bitsPerPixel i : Nat) : Nat :=
  i * 255 / (2 ^ bitsPerPixel - 1)

/-- Grayscale color table: one `[blue, green, red, 0]` quad per index. -/
def bmpPalette (bitsPerPixel : Nat) : List Nat :=
  (List.range (paletteEntries bitsPerPixel)).flatMap
    (fun i => [paletteValue bitsPerPixel i, paletteValue bitsPerPixel i,
               paletteValue bitsPerPixel i, 0])

/-- Index of a raw 8-bit sample at a given depth: its top `depth` bits, the
inverse of the grayscale ramp on exact palette values. -/
def sampleToIndex (bitsPerPixel sample : Nat) : Nat :=
  sample / 2 ^ (8 - bitsPerPixel)

/-- Pack a row of indices into `nbytes` bytes at `d` bits per index,
`perByte` indices per byte, first index in the high bits; missing indices
(row exhausted, including the padding bytes) pack as zero, so the stored row
comes out at exactly the padded row size. -/
def packRowBytes (d perByte : Nat) (row : List Nat) (nbytes : Nat) :
    List Nat :=
  match nbytes with
  | 0 => []
  | n + 1 =>
    let group := row.take perByte
    let byte := (group ++ List.replicate (perByte - group.length) 0).foldl
      (fun acc i => acc * 2 ^ d + i % 2 ^ d) 0
    byte :: packRowBytes d perByte (row.drop perByte) n

/-- Reverse the 3 sample bytes of each of `npix` pixels (RGB → BGR). -/
def reverse3 (row : List Nat) (npix : Nat) : List Nat :=
  match npix with
  | 0 => []
  | n + 1 => (row.take 3).reverse ++ reverse3 (row.drop 3) n

/-- Byte offset of the pixel data: the two headers plus the color table. -/
def bmpDataOffset (d : Nat) : Nat := 14 + 40 + 4 * paletteEntries d

/-- The 14-byte file header: magic "BM", total file size, two reserved
words, pixel-data offset; all multi-byte fields little-endian. -/
def bmpFileHeader (d w h : Nat) : List Nat :=
  [66, 77] ++ toLE4 (bmpDataOffset d + bmpRowSize w d * h) ++
    toLE2 0 ++ toLE2 0 ++ toLE4 (bmpDataOffset d)

/-- The 40-byte info header: header size, width, height, one plane, bit
depth, no compression, image size, 72-dpi resolutions, palette size, zero
important colors; all little-endian. -/
def bmpInfoHeader (d w h : Nat) : List Nat :=
  toLE4 40 ++ toLE4 w ++ toLE4 h ++ toLE2 1 ++ toLE2 d ++ toLE4 0 ++
    toLE4 (bmpRowSize w d * h) ++ toLE4 2835 ++ toLE4 2835 ++
    toLE4 (paletteEntries d) ++ toLE4 0

/-- Stored bytes of image row `r` at an indexed depth: the row's samples
mapped to palette indices and bit-packed with padding. -/
def encodeRowIndexed (d w : Nat) (data : List Nat) (r : Nat) : List Nat :=
  packRowBytes d (8 / d) (((data.drop (r * w)).take w).map (sampleToIndex d))
    (bmpRowSize w d)

/-- Stored bytes of image row `r` at 24-bit depth: 3 bytes per pixel with
byte order reversed, then zero padding to the 4-byte boundary. -/
def encodeRow24 (w : Nat) (data : List Nat) (r : Nat) : List Nat :=
  reverse3 ((data.drop (r * w * 3)).take (w * 3)) w ++
    List.replicate (bmpRowSize w 24 - w * 3) 0

/-- The pixel array: image rows stored bottom-to-top. -/
def bmpPixelData (d w h : Nat) (data : List Nat) : List Nat :=
  (List.range h).reverse.flatMap
    (fun r => if d ≤ 8 then encodeRowIndexed d w data r else encodeRow24 w data r)

/-- Modelled from the spec: the repository's `BMPEncoder` (imported from
`bmp.js`, which is not among the provided sources) per the Bitmap Encoder
contract — file header + info header + (for depths ≤ 8) a grayscale color
table of `2^depth` entries, then pixel rows bottom-to-top, packed and padded
to 4-byte boundaries, 24-bit pixels as 3 reversed bytes each, every
multi-byte field little-endian. -/
def BMPEncoder.encode (w h d : Nat) (data : List Nat) : List Nat :=
  bmpFileHeader d w h ++ bmpInfoHeader d w h ++ bmpPalette d ++
    bmpPixelData d w h data

/-- Little-endian 16-bit read at a byte offset. -/
def readLE2 (bytes : List Nat) (off : Nat) : Nat :=
  bytes.getD off 0 + 256 * bytes.getD (off + 1) 0

/-- Little-endian 32-bit read at a byte offset. -/
def readLE4 (bytes : List Nat) (off : Nat) : Nat :=
  bytes.getD off 0 + 256 * bytes.getD (off + 1) 0 +
    65536 * bytes.getD (off + 2) 0 + 16777216 * bytes.getD (off + 3) 0

/-- Unpack one byte into `perByte` indices of `d` bits, MSB-first. -/
def unpackByte (d perByte byte : Nat) : List Nat :=
  (List.range perByte).map (fun j => byte / 2 ^ (d * (perByte - 1 - j)) % 2 ^ d)

/-- Unpack a stored row's bytes into the index stream. -/
def unpackRow (d perByte : Nat) (bytes : List Nat) : List Nat :=
  bytes.flatMap (unpackByte d perByte)

/-- Decode one stored row back to raw samples: indexed depths go through the
color table (unindexing), 24-bit rows reverse each pixel's 3 bytes back. -/
def decodeRow (d w : Nat) (palette : List Nat) (bytes : List Nat) : List Nat :=
  if d ≤ 8 then
    ((unpackRow d (8 / d) bytes).take w).map (fun i => palette.getD (4 * i) 0)
  else
    reverse3 (bytes.take (w * 3)) w

/-- Reference bitmap reader: recover width, height and depth from the fixed
header offsets, slice the color table and the padded bottom-up rows, and
rebuild the top-down raw sample buffer. -/
def BMPEncoder.decode (file : List Nat) : Nat × Nat × Nat × List Nat :=
  let w := readLE4 file 18
  let h := readLE4 file 22
  let d := readLE2 file 28
  let off := readLE4 file 10
  let palette := (file.drop 54).take (4 * paletteEntries d)
  let rs := bmpRowSize w d
  let pixelBytes := file.drop off
  let rows := (List.range h).map (fun r => (pixelBytes.drop (r * rs)).take rs)
  (w, h, d, rows.reverse.flatMap (decodeRow d w palette))

theorem bmpPalette_length (d : Nat) :
    (bmpPalette d).length = 4 * paletteEntries d := by
  simp [bmpPalette, List.length_flatMap]
  induction paletteEntries d with
  | zero => simp
  | succ n ih => simp [List.range_succ, ih]; omega

set_option maxRecDepth 100000 in
/-- C10: the encoder produces file header, then info header, then (for
indexed depths) a `2^depth`-entry grayscale color table of 4 bytes each,
then the pixel rows bottom-to-top padded to 4-byte boundaries; the stored
row size for width 3 at depth 24 is 12 bytes; and the reference reader
recovers the original sample buffers from encodings at depths 1, 8 and 24
(bottom-up row order and unindexing accounted for). -/
theorem C10_bmp_encoder_contract :
    (∀ w h d data, BMPEncoder.encode w h d data
      = bmpFileHeader d w h ++ bmpInfoHeader d w h ++ bmpPalette d ++
        bmpPixelData d w h data) ∧
    (∀ d, d ≤ 8 → (bmpPalette d).length = 4 * 2 ^ d) ∧
    bmpRowSize 3 24 = 12 ∧
    BMPEncoder.decode (BMPEncoder.encode 10 2 1
        [0, 255, 255, 0, 0, 255, 0, 255, 255, 0,
         255, 0, 0, 255, 255, 0, 255, 0, 0, 255])
      = (10, 2, 1,
        [0, 255, 255, 0, 0, 255, 0, 255, 255, 0,
         255, 0, 0, 255, 255, 0, 255, 0, 0, 255]) ∧
    BMPEncoder.decode (BMPEncoder.encode 3 2 8 [10, 20, 30, 40, 50, 60])
      = (3, 2, 8, [10, 20, 30, 40, 50, 60]) ∧
    BMPEncoder.decode (BMPEncoder.encode 3 2 24
        [1, 2, 3, 4, 5, 6, 7, 8, 9, 10, 11, 12, 13, 14, 15, 16, 17, 18])
      = (3, 2, 24,
        [1, 2, 3, 4, 5, 6, 7, 8, 9, 10, 11, 12, 13, 14, 15, 16, 17, 18]) := by
  refine ⟨fun w h d data => rfl, ?_, by decide, by decide, by decide, by decide⟩
  intro d hd
  rw [bmpPalette_length]
  simp [paletteEntries, hd]

/-- Witness for C10's palette-size clause at depth 4. -/
theorem C10_bmp_encoder_contract_witness :
    (4 : Nat) ≤ 8 ∧ (bmpPalette 4).length = 4 * 2 ^ 4 :=
  ⟨by decide, C10_bmp_encoder_contract.2.1 4 (by decide)⟩

end Puppet
